import Mathlib

/-!
Verification of the rede-cnpj download scripts
(`rede_cria_tabelas/dados_tse_baixa.py` and
`rede_cria_tabelas/doe/diarios_ceara_scraper.py`) against their
natural-language specification.

Strings are modelled as lists of characters (`Str`).  Python string
operations are translated as follows: `s.endswith(t)` becomes
`strEndsWith s t` (decidable suffix), `s.startswith(t)` becomes
`strStartsWith s t`, `t in s` becomes `containsSubstr s t`,
`s.lower()` becomes `toLowerStr s` (ASCII lowering, as non-ASCII
letters never decide any modelled branch), and `urllib.parse.unquote`
is modelled as the identity: inputs are taken already
percent-decoded, and no claim depends on percent decoding.

Effectful code (network requests, prompts, sleeps, file writes) is
modelled by explicit inputs (server functions, answer values,
existence predicates) and by an event trace (`Ev`).
-/

/-- Character list standing for a Python string. -/
abbrev Str := List Char

/-- Embed a Lean string literal as a `Str`. -/
def lit (s : String) : Str := s.data

/-- Model of Python `str.lower` (ASCII letters only). -/
def toLowerStr (s : Str) : Str := s.map Char.toLower

/-- Model of Python `str.startswith`. -/
def strStartsWith (s p : Str) : Bool := decide (p <+: s)

/-- Model of Python `str.endswith`. -/
def strEndsWith (s suf : Str) : Bool := decide (suf <:+ s)

/-- Model of Python `needle in hay` on strings. -/
def containsSubstr (hay needle : Str) : Bool := decide (needle <:+: hay)

/-- Split a character list at every occurrence of `c` (Python `str.split`). -/
def splitOnChar (c : Char) : Str → List Str
  | [] => [[]]
  | x :: xs =>
    match splitOnChar c xs with
    | [] => if x = c then [[], []] else [[x]]
    | h :: t => if x = c then [] :: h :: t else (x :: h) :: t

/-- Model of `os.path.basename` on POSIX paths: everything after the last slash. -/
def basename (p : Str) : Str := (p.reverse.takeWhile (fun c => c != '/')).reverse

/-- Model of `os.path.dirname` on POSIX paths. -/
def dirname (p : Str) : Str :=
  let tail := (p.reverse.takeWhile (fun c => c != '/')).reverse
  if tail.length = p.length then []
  else
    let head := p.take (p.length - tail.length)
    if head.all (fun c => c == '/') then head
    else (head.reverse.dropWhile (fun c => c == '/')).reverse

/-- Model of `os.path.join` for one relative component. -/
def pathJoin (d f : Str) : Str :=
  if d = [] then f
  else if strEndsWith d (lit "/") then d ++ f
  else d ++ lit "/" ++ f

/-! ## Existing-file policy (`dados_tse_baixa.handle_existing_file`)

The interactive prompt loops until one of the four legal answers is
typed, so the prompt is modelled by a value of type `Answer`.  The
`prompted` field records whether `input()` was reached. -/

/-- The four legal answers of the existing-file prompt (`s`, `o`, `sa`, `oa`). -/
inductive Answer
  | skipOnce
  | overwriteOnce
  | skipAllFiles
  | overwriteAllFiles
deriving DecidableEq, Repr

/-- The action decided for one file. -/
inductive FileAction
  | skip
  | overwrite
deriving DecidableEq, Repr

/-- Return value of `handle_existing_file`: the action plus the two updated
global flags, instrumented with whether the user was prompted. -/
structure Decision where
  action : FileAction
  skipAll : Bool
  overwriteAll : Bool
  prompted : Bool
deriving DecidableEq, Repr

/-- Model of `handle_existing_file(filepath, global_skip_all, global_overwrite_all)`.
The file system is abstracted to the boolean `fileExists` for the given path. -/
def handle_existing_file (fileExists : Bool) (globalSkipAll globalOverwriteAll : Bool)
    (answer : Answer) : Decision :=
  if !fileExists then ⟨FileAction.overwrite, globalSkipAll, globalOverwriteAll, false⟩
  else if globalSkipAll then ⟨FileAction.skip, globalSkipAll, globalOverwriteAll, false⟩
  else if globalOverwriteAll then ⟨FileAction.overwrite, globalSkipAll, globalOverwriteAll, false⟩
  else
    match answer with
    | Answer.skipOnce => ⟨FileAction.skip, false, false, true⟩
    | Answer.overwriteOnce => ⟨FileAction.overwrite, false, false, true⟩
    | Answer.skipAllFiles => ⟨FileAction.skip, true, false, true⟩
    | Answer.overwriteAllFiles => ⟨FileAction.overwrite, false, true, true⟩

/-- Claim C1 (counterexample): a first call answered skip-all sets the global
flag, but a later call for a path whose file does not exist returns
`overwrite`, not `skip`, because `handle_existing_file` checks
`os.path.exists` before the `global_skip_all` flag. -/
theorem C1_counterexample :
    (handle_existing_file true false false Answer.skipAllFiles).skipAll = true ∧
    (handle_existing_file false true false Answer.skipOnce).action = FileAction.overwrite ∧
    (handle_existing_file false true false Answer.skipOnce).action ≠ FileAction.skip := by
  decide

/-- Claim C1 (amended): once `global_skip_all` is set, every subsequent call of
`handle_existing_file` returns without prompting and leaves both global flags
unchanged; it returns `skip` for every path whose file exists, and `overwrite`
(nothing to preserve) for a path whose file does not exist. -/
theorem C1_skip_all_policy (fileExists gsa goa : Bool) (ans : Answer) (h : gsa = true) :
    (handle_existing_file fileExists gsa goa ans).prompted = false ∧
    (handle_existing_file fileExists gsa goa ans).skipAll = gsa ∧
    (handle_existing_file fileExists gsa goa ans).overwriteAll = goa ∧
    (handle_existing_file fileExists gsa goa ans).action =
      (if fileExists then FileAction.skip else FileAction.overwrite) := by
  subst h
  cases fileExists <;> simp [handle_existing_file]

/-- Claim C1 (witness): the amended theorem evaluated in the skip-all state on
an existing file. -/
theorem C1_skip_all_policy_witness :
    (handle_existing_file true true false Answer.skipOnce).prompted = false ∧
    (handle_existing_file true true false Answer.skipOnce).skipAll = true ∧
    (handle_existing_file true true false Answer.skipOnce).overwriteAll = false ∧
    (handle_existing_file true true false Answer.skipOnce).action =
      (if true then FileAction.skip else FileAction.overwrite) :=
  C1_skip_all_policy true true false Answer.skipOnce rfl

/-! ## Resumable downloader (`dados_tse_baixa.download_file`)

The HTTP transport is a function from the optional `Range` offset of the
request to the response; files are byte lists, so the partial file on disk
is an `Option (List Nat)` (`none` when `output_path` does not exist).
The streamed chunked write of the body is modelled as appending or writing
the whole body, which preserves exactly the byte counts the claims are
about. -/

/-- An HTTP response as seen by `dados_tse_baixa.download_file`: status code,
declared `content-length`, and the streamed body. -/
structure TseResponse where
  status : Nat
  contentLength : Nat
  body : List Nat
deriving DecidableEq, Repr

/-- Result of one `dados_tse_baixa.download_file` call, instrumented with the
`Range` offset of the first request (`firstRange`), the offset actually used
after a possible 416 fallback (`usedRange`), and the open mode
(`modeAppend` = Python mode `ab` versus `wb`). -/
structure TseResult where
  ok : Bool
  firstRange : Option Nat
  usedRange : Option Nat
  modeAppend : Bool
  fileAfter : Option (List Nat)
  transferred : Nat
  totalSize : Nat
deriving DecidableEq, Repr

/-- Model of `dados_tse_baixa.download_file(url, output_path)`.  `disk` is the
current content of `output_path` (`none` if absent); `server` maps the
optional `Range` offset of a GET to its response.  Statuses at or above 400
make `raise_for_status` raise, which the function reports as failure. -/
def tse_download_file (disk : Option (List Nat)) (server : Option Nat → TseResponse) :
    TseResult :=
  let offset : Option Nat := disk.map List.length
  let resp1 := server offset
  let range2 := if resp1.status = 416 then none else offset
  let resp := if resp1.status = 416 then server none else resp1
  if 400 ≤ resp.status then
    { ok := false, firstRange := offset, usedRange := range2, modeAppend := false,
      fileAfter := disk, transferred := 0, totalSize := 0 }
  else
    let append := range2.isSome && disk.isSome
    let totalSize := resp.contentLength + (if append then (disk.getD []).length else 0)
    let newFile := (if append then disk.getD [] else []) ++ resp.body
    { ok := true, firstRange := offset, usedRange := range2, modeAppend := append,
      fileAfter := some newFile, transferred := resp.body.length, totalSize := totalSize }

/-- Claim C2 (amended, TSE downloader part): with a partial file of K bytes on
disk and a server that honours the range request for a resource of N bytes
(K < N), `download_file` requests `Range: bytes=K-`, appends, and ends with a
file of exactly N bytes after transferring exactly N - K bytes. -/
theorem C2_resume_correctness (d content : List Nat) (server : Option Nat → TseResponse)
    (hK : d.length < content.length)
    (hServer : server (some d.length) =
      ⟨206, content.length - d.length, content.drop d.length⟩) :
    (tse_download_file (some d) server).firstRange = some d.length ∧
    (tse_download_file (some d) server).ok = true ∧
    (tse_download_file (some d) server).modeAppend = true ∧
    ((tse_download_file (some d) server).fileAfter.getD []).length = content.length ∧
    (tse_download_file (some d) server).transferred = content.length - d.length := by
  simp only [tse_download_file, Option.map_some', hServer]
  norm_num
  omega

/-- Claim C2 (witness): a range-honouring two-byte server with a one-byte
partial file on disk. -/
def c2server : Option Nat → TseResponse := fun o =>
  match o with
  | some 1 => ⟨206, 1, [8]⟩
  | _ => ⟨200, 2, [7, 8]⟩

/-- Claim C2 (witness): the amended theorem evaluated at K = 1, N = 2. -/
theorem C2_resume_correctness_witness :
    (tse_download_file (some [9]) c2server).firstRange = some 1 ∧
    (tse_download_file (some [9]) c2server).ok = true ∧
    (tse_download_file (some [9]) c2server).modeAppend = true ∧
    ((tse_download_file (some [9]) c2server).fileAfter.getD []).length = 2 ∧
    (tse_download_file (some [9]) c2server).transferred = 1 :=
  C2_resume_correctness [9] [7, 8] c2server (by decide) (by decide)

/-- Claim C5 (confirmed): when the server answers 416 to the ranged request
but serves the full resource on the following unranged request,
`dados_tse_baixa.download_file` restarts from offset 0 (no range header on the
second request), opens in truncating `wb` mode, never reports the 416 as an
error, and finishes with exactly the full remote content on disk. -/
theorem C5_range_rejection_fallback (d content : List Nat)
    (server : Option Nat → TseResponse)
    (h416 : (server (some d.length)).status = 416)
    (hFull : server none = ⟨200, content.length, content⟩) :
    (tse_download_file (some d) server).ok = true ∧
    (tse_download_file (some d) server).firstRange = some d.length ∧
    (tse_download_file (some d) server).usedRange = none ∧
    (tse_download_file (some d) server).modeAppend = false ∧
    (tse_download_file (some d) server).fileAfter = some content := by
  simp [tse_download_file, h416, hFull]

/-- Claim C5 (witness): a server answering 416 to every ranged request. -/
def c5server : Option Nat → TseResponse := fun o =>
  match o with
  | some _ => ⟨416, 0, []⟩
  | none => ⟨200, 2, [7, 8]⟩

/-- Claim C5 (witness): the theorem evaluated on a one-byte partial file and a
two-byte resource. -/
theorem C5_range_rejection_fallback_witness :
    (tse_download_file (some [9]) c5server).ok = true ∧
    (tse_download_file (some [9]) c5server).firstRange = some 1 ∧
    (tse_download_file (some [9]) c5server).usedRange = none ∧
    (tse_download_file (some [9]) c5server).modeAppend = false ∧
    (tse_download_file (some [9]) c5server).fileAfter = some [7, 8] :=
  C5_range_rejection_fallback [9] [7, 8] c5server (by decide) (by decide)

/-! ## Retry loop of `dados_tse_baixa.main` and the DOE scraper downloader

Observable effects are recorded in an event trace: consulting the
existing-file policy (which may prompt), issuing a network GET, sleeping
for a backoff, and writing the file. -/

/-- Observable events of a download run. -/
inductive Ev
  | consult
  | netGet
  | wait (n : Nat)
  | write
deriving DecidableEq, Repr

/-- Result of a retry loop: overall success, the event trace, and how many
attempts were made. -/
structure RetryRun where
  ok : Bool
  trace : List Ev
  attempts : Nat
deriving DecidableEq, Repr

/-- One step of the retry loop of `dados_tse_baixa.main` (lines 430 to 445):
`attempt` is the 1-based attempt counter, the second argument the number of
attempts still allowed; before every attempt after the first the loop sleeps
`2 ** attempt` seconds.  `att i` tells whether the download succeeds at
attempt `i`. -/
def tseRetryAux (att : Nat → Bool) : Nat → Nat → RetryRun
  | _, 0 => ⟨false, [], 0⟩
  | attempt, remaining + 1 =>
    let pre : List Ev := if 1 < attempt then [Ev.wait (2 ^ attempt)] else []
    if att attempt then ⟨true, pre ++ [Ev.netGet], 1⟩
    else
      let r := tseRetryAux att (attempt + 1) remaining
      ⟨r.ok, pre ++ [Ev.netGet] ++ r.trace, r.attempts + 1⟩

/-- The retry loop of `dados_tse_baixa.main` with its literal
`max_retries = 3`. -/
def tse_retry (att : Nat → Bool) : RetryRun := tseRetryAux att 1 3

/-- Outcome classification shared by both scripts. -/
inductive Outcome
  | downloaded
  | skipped
  | failed
deriving DecidableEq, Repr

/-- Result of processing one resource in `dados_tse_baixa.main`
(lines 416 to 446): outcome, updated global flags, event trace. -/
structure ResourceRun where
  outcome : Outcome
  newSkipAll : Bool
  newOverwriteAll : Bool
  trace : List Ev
deriving DecidableEq, Repr

/-- Model of the per-resource flow of `dados_tse_baixa.main`: consult
`handle_existing_file` first; on `skip` count the file as skipped without any
network traffic, otherwise run the retry loop around `download_file`. -/
def process_resource (fileExists : Bool) (gsa goa : Bool) (answer : Answer)
    (att : Nat → Bool) : ResourceRun :=
  let d := handle_existing_file fileExists gsa goa answer
  if d.action = FileAction.skip then
    ⟨Outcome.skipped, d.skipAll, d.overwriteAll, [Ev.consult]⟩
  else
    let r := tse_retry att
    ⟨if r.ok then Outcome.downloaded else Outcome.failed, d.skipAll, d.overwriteAll,
      Ev.consult :: r.trace⟩

/-! ## DOE scraper downloader (`diarios_ceara_scraper.download_file`)

Each element of the attempt list is the transport behaviour of one GET:
`none` for a network exception, `some resp` for a response.  The
Content-Disposition filename, when the header is present and parseable, is
carried in the response as `cdName`. -/

/-- An HTTP response as seen by `diarios_ceara_scraper.download_file`. -/
structure ScrResponse where
  status : Nat
  cdName : Option Str
  contentLength : Nat
  body : List Nat
deriving DecidableEq, Repr

/-- Result of one `diarios_ceara_scraper.download_file` call. -/
structure ScrResult where
  ok : Bool
  outcome : Outcome
  finalPath : Str
  fileWritten : Option (List Nat)
  transferred : Nat
  attemptsMade : Nat
  trace : List Ev
deriving DecidableEq, Repr

/-- The generic basenames that `diarios_ceara_scraper.download_file` replaces
by a Content-Disposition filename (line 555). -/
def genericTargets : List Str :=
  [lit "visualizar.pdf", lit "baixar.pdf", lit "download.pdf", lit "documento.pdf"]

/-- Model of lines 542 to 559 of `diarios_ceara_scraper.download_file`: the
target path is replaced by the Content-Disposition filename exactly when that
name is non-empty, its lowercase form ends in `.pdf`, and the lowercase
basename of the requested path is one of the generic names. -/
def resolveOutputPath (filepath : Str) (cdName : Option Str) : Str :=
  match cdName with
  | none => filepath
  | some n =>
    if (!n.isEmpty) && strEndsWith (toLowerStr n) (lit ".pdf") &&
        decide (toLowerStr (basename filepath) ∈ genericTargets) then
      pathJoin (dirname filepath) n
    else filepath

/-- Model of `diarios_ceara_scraper.download_file(url, filepath)` over the
list of per-attempt transport behaviours (`max_retries = 3` gives a
three-element list).  The GET is issued first; `raise_for_status` turns any
status at or above 400 into a retried exception; the existing-file prompt
(`should_overwrite_file`, answer `overwriteAnswer`) is consulted only after
the response arrived, and the file is then written in truncating `wb` mode.
No sleep happens between attempts. -/
def scraper_download_file (filepath : Str) (existsAt : Str → Bool) (overwriteAnswer : Bool) :
    List (Option ScrResponse) → ScrResult
  | [] =>
    { ok := false, outcome := Outcome.failed, finalPath := filepath, fileWritten := none,
      transferred := 0, attemptsMade := 0, trace := [] }
  | none :: rest =>
    let r := scraper_download_file filepath existsAt overwriteAnswer rest
    { r with attemptsMade := r.attemptsMade + 1, trace := Ev.netGet :: r.trace }
  | some resp :: rest =>
    if 400 ≤ resp.status then
      let r := scraper_download_file filepath existsAt overwriteAnswer rest
      { r with attemptsMade := r.attemptsMade + 1, trace := Ev.netGet :: r.trace }
    else
      let fp := resolveOutputPath filepath resp.cdName
      if existsAt fp && !overwriteAnswer then
        { ok := true, outcome := Outcome.skipped, finalPath := fp, fileWritten := none,
          transferred := 0, attemptsMade := 1, trace := [Ev.netGet, Ev.consult] }
      else
        { ok := true, outcome := Outcome.downloaded, finalPath := fp,
          fileWritten := some resp.body, transferred := resp.body.length, attemptsMade := 1,
          trace := Ev.netGet :: (if existsAt fp then [Ev.consult, Ev.write] else [Ev.write]) }

/-- Claim C2 (counterexample): the DOE scraper `download_file` does not
resume.  With a partial file of K = 1 byte on disk and a remote resource of
N = 2 bytes, it issues a plain GET (the code never sends a `Range` header),
truncates, and transfers all 2 bytes instead of the N - K = 1 byte the claim
demands. -/
theorem C2_counterexample :
    (scraper_download_file (lit "d/f.pdf") (fun _ => true) true
        [some ⟨200, none, 2, [7, 8]⟩]).outcome = Outcome.downloaded ∧
    (scraper_download_file (lit "d/f.pdf") (fun _ => true) true
        [some ⟨200, none, 2, [7, 8]⟩]).transferred = 2 ∧
    (scraper_download_file (lit "d/f.pdf") (fun _ => true) true
        [some ⟨200, none, 2, [7, 8]⟩]).transferred ≠ 2 - 1 ∧
    (scraper_download_file (lit "d/f.pdf") (fun _ => true) true
        [some ⟨200, none, 2, [7, 8]⟩]).fileWritten = some [7, 8] := by
  decide

/-- Claim C3 (counterexample): in the DOE scraper `download_file`, the
existing-file decision (`should_overwrite_file`) is consulted only after the
streamed GET was issued; a `skip` answer still yields status `skipped`, but a
network call has already been made. -/
theorem C3_counterexample :
    (scraper_download_file (lit "d/a.pdf") (fun _ => true) false
        [some ⟨200, none, 1, [5]⟩]).outcome = Outcome.skipped ∧
    Ev.netGet ∈ (scraper_download_file (lit "d/a.pdf") (fun _ => true) false
        [some ⟨200, none, 1, [5]⟩]).trace ∧
    (scraper_download_file (lit "d/a.pdf") (fun _ => true) false
        [some ⟨200, none, 1, [5]⟩]).trace = [Ev.netGet, Ev.consult] := by
  decide

/-- Claim C3 (amended): in the TSE flow (`dados_tse_baixa.main`) the policy is
consulted before anything else, and a `skip` decision short-circuits the
download: the outcome is `skipped` and the trace is the bare consult, with no
network call at all.  In the DOE scraper the policy is consulted only after
the GET has been issued (see the counterexample). -/
theorem C3_policy_before_network (fileExists gsa goa : Bool) (ans : Answer)
    (att : Nat → Bool) :
    (process_resource fileExists gsa goa ans att).trace.head? = some Ev.consult ∧
    ((handle_existing_file fileExists gsa goa ans).action = FileAction.skip →
      (process_resource fileExists gsa goa ans att).outcome = Outcome.skipped ∧
      (process_resource fileExists gsa goa ans att).trace = [Ev.consult] ∧
      Ev.netGet ∉ (process_resource fileExists gsa goa ans att).trace) := by
  by_cases h : (handle_existing_file fileExists gsa goa ans).action = FileAction.skip
  · simp [process_resource, h]
  · simp [process_resource, h]

/-- Claim C3 (witness): the amended theorem evaluated in the skip-all state,
where the decision is `skip`. -/
theorem C3_policy_before_network_witness :
    (process_resource true true false Answer.skipOnce (fun _ => true)).outcome
      = Outcome.skipped ∧
    (process_resource true true false Answer.skipOnce (fun _ => true)).trace
      = [Ev.consult] ∧
    Ev.netGet ∉ (process_resource true true false Answer.skipOnce (fun _ => true)).trace :=
  (C3_policy_before_network true true false Answer.skipOnce (fun _ => true)).2 (by decide)

/-- Claim C4 (counterexample): the DOE scraper `download_file` retries a
transport that always raises, makes exactly 3 attempts and fails, but sleeps
no backoff at all between the attempts: its trace holds three GETs and no
wait event, contradicting the claimed strictly increasing `2 ** attempt`
waits before each retry. -/
theorem C4_counterexample :
    (scraper_download_file (lit "d/a.pdf") (fun _ => false) true
        [none, none, none]).outcome = Outcome.failed ∧
    (scraper_download_file (lit "d/a.pdf") (fun _ => false) true
        [none, none, none]).attemptsMade = 3 ∧
    (scraper_download_file (lit "d/a.pdf") (fun _ => false) true
        [none, none, none]).trace = [Ev.netGet, Ev.netGet, Ev.netGet] ∧
    Ev.wait 4 ∉ (scraper_download_file (lit "d/a.pdf") (fun _ => false) true
        [none, none, none]).trace := by
  decide

/-- Claim C4 (amended): for a transport that raises a transient error on every
attempt, both downloaders attempt exactly `max_retries = 3` times and finally
fail.  The TSE flow sleeps the strictly increasing backoff `2 ** attempt`
(4 then 8 time units) before attempts 2 and 3; the DOE scraper retries with
no wait at all (see the counterexample). -/
theorem C4_retry_cap :
    (∀ att : Nat → Bool, (∀ i, att i = false) →
      tse_retry att =
        ⟨false, [Ev.netGet, Ev.wait 4, Ev.netGet, Ev.wait 8, Ev.netGet], 3⟩) ∧
    (∀ (fp : Str) (existsAt : Str → Bool) (ow : Bool),
      (scraper_download_file fp existsAt ow [none, none, none]).outcome = Outcome.failed ∧
      (scraper_download_file fp existsAt ow [none, none, none]).attemptsMade = 3 ∧
      (scraper_download_file fp existsAt ow [none, none, none]).trace =
        [Ev.netGet, Ev.netGet, Ev.netGet]) := by
  constructor
  · intro att h
    simp [tse_retry, tseRetryAux, h]
  · intro fp existsAt ow
    simp [scraper_download_file]

/-- Claim C4 (witness): the amended theorem applied to the always-failing
transport. -/
theorem C4_retry_cap_witness :
    tse_retry (fun _ => false) =
      ⟨false, [Ev.netGet, Ev.wait 4, Ev.netGet, Ev.wait 8, Ev.netGet], 3⟩ :=
  C4_retry_cap.1 (fun _ => false) (fun _ => rfl)

/-! ## Link extractor URL handling

`diarios_ceara_scraper.test_shortcut_url` (lines 150 to 156) makes every
candidate href absolute; `dados_tse_baixa.get_resources_from_year`
(lines 142 to 166) resolves an href against the base URL only inside the
secondary resource-page branch. -/

/-- Site host used by the scraper for root-relative hrefs. -/
def SCRAPER_HOST : Str := lit "http://pesquisa.doe.seplag.ce.gov.br"

/-- Base used by the scraper for hrefs that are neither root-relative nor
absolute. -/
def SCRAPER_APP_BASE : Str := lit "http://pesquisa.doe.seplag.ce.gov.br/doepesquisa/"

/-- Model of the URL absolutisation in `test_shortcut_url` (lines 150 to
156). -/
def make_absolute (href : Str) : Str :=
  if strStartsWith href (lit "/") then SCRAPER_HOST ++ href
  else if strStartsWith href (lit "http") then href
  else SCRAPER_APP_BASE ++ href

/-- `BASE_URL` of `dados_tse_baixa.py`. -/
def TSE_BASE_URL : Str := lit "https://dadosabertos.tse.jus.br"

/-- Extension allow-list of `dados_tse_baixa.get_resources_from_year`
(line 145). -/
def tseExtAllowList : List Str :=
  [lit ".zip", lit ".csv", lit ".pdf", lit ".txt", lit ".xlsx", lit ".xls",
   lit ".jpg", lit ".jpeg"]

/-- Python `download_url.endswith(('.zip', ..., '.jpeg'))`. -/
def endsWithKnownExt (u : Str) : Bool := tseExtAllowList.any (fun e => strEndsWith u e)

/-- The characters removed by `download_url.rstrip('. \n\r\t')` (line 166). -/
def urlStripChars : Str := ['.', ' ', '\n', '\r', '\t']

/-- Model of `str.rstrip` over `urlStripChars`. -/
def rstripUrl (s : Str) : Str :=
  (s.reverse.dropWhile (fun c => decide (c ∈ urlStripChars))).reverse

/-- Model of the URL resolution in `get_resources_from_year` (lines 142 to
166).  `followedHref` is the href of the direct download link found on the
secondary resource page (`none` when that fetch fails or finds no link;
`urljoin` against the path-less `BASE_URL` is plain concatenation for a
root-relative href). -/
def tse_resolve_url (href : Str) (followedHref : Option Str) : Str :=
  let u :=
    if (!href.isEmpty) && !endsWithKnownExt href then
      if strStartsWith href (lit "/") || containsSubstr href (lit "dataset") then
        match followedHref with
        | some d => if strStartsWith d (lit "/") then TSE_BASE_URL ++ d else d
        | none => href
      else href
    else href
  rstripUrl u

/-- Claim C6 (counterexample): the TSE extractor leaves a non-empty,
root-relative href that already ends in a recognised extension exactly as it
is, so the Resource leaves the extractor with a relative URL, never resolved
against the page base. -/
theorem C6_counterexample :
    tse_resolve_url (lit "/a.zip") none = lit "/a.zip" ∧
    strStartsWith (tse_resolve_url (lit "/a.zip") none) (lit "http") = false ∧
    strStartsWith (lit "/a.zip") (lit "/") = true := by
  decide

/-- Claim C6 (amended): every URL leaving the DOE scraper extractor is
non-empty and absolute (it starts with `http`, relative hrefs having been
resolved against the site base); the TSE extractor only guarantees this in
the secondary-page branch and may emit relative URLs otherwise (see the
counterexample). -/
theorem C6_extractor_urls (href : Str) :
    strStartsWith (make_absolute href) (lit "http") = true ∧ make_absolute href ≠ [] := by
  unfold make_absolute
  split
  · refine ⟨?_, by simp [SCRAPER_HOST, lit]⟩
    simp only [strStartsWith, decide_eq_true_eq]
    exact (by decide : lit "http" <+: SCRAPER_HOST).trans (List.prefix_append _ _)
  · split
    · next h2 =>
      refine ⟨h2, ?_⟩
      have hp : lit "http" <+: href := by
        simpa [strStartsWith, decide_eq_true_eq] using h2
      intro he
      have := hp.length_le
      simp [he, lit] at this
    · refine ⟨?_, by simp [SCRAPER_APP_BASE, lit]⟩
      simp only [strStartsWith, decide_eq_true_eq]
      exact (by decide : lit "http" <+: SCRAPER_APP_BASE).trans (List.prefix_append _ _)

/-! ## Empty-result markers (`test_shortcut_url`, lines 220 to 225)

After link collection, the page text decides between "no publications"
(success with zero links) and a normal result. -/

/-- The literal marker phrases of line 222. -/
def emptyResultMarkers : List Str :=
  [lit "não há", lit "sem dados", lit "nenhuma publicação", lit "não existem"]

/-- Python `any(phrase in page_text for phrase in [...])` on the lowercased
full page text. -/
def markersPresent (pageText : Str) : Bool :=
  emptyResultMarkers.any (fun m => containsSubstr (toLowerStr pageText) m)

/-- Model of the tail of `test_shortcut_url` (lines 220 to 225): given the
page text and the links collected so far, a marker phrase forces the result
`(True, [])`; otherwise the collected links are returned with success. -/
def shortcut_page_result (pageText : Str) (links : List (Str × Str)) :
    Bool × List (Str × Str) :=
  if markersPresent pageText then (true, []) else (true, links)

/-- Claim C8 (confirmed): whenever the page text contains one of the literal
marker phrases, extraction reports success (page loaded) with zero links —
never a page-load failure — regardless of any links collected before the
check. -/
theorem C8_empty_result_markers (pageText : Str) (links : List (Str × Str))
    (h : markersPresent pageText = true) :
    shortcut_page_result pageText links = (true, []) := by
  simp [shortcut_page_result, h]

/-- Claim C8 (witness): a page announcing "não há publicações" yields zero
links even though a link had been collected. -/
theorem C8_empty_result_markers_witness :
    shortcut_page_result (lit "Aviso: não há publicações nesta data")
      [(lit "a.pdf", lit "http://x/a.pdf")] = (true, []) :=
  C8_empty_result_markers (lit "Aviso: não há publicações nesta data")
    [(lit "a.pdf", lit "http://x/a.pdf")] (by decide)

/-! ## Format derivation (`get_resources_from_year`, lines 168 to 184) -/

/-- The format enumeration of the specification. -/
inductive FileFormat
  | ZIP
  | CSV
  | PDF
  | TXT
  | XLSX
  | JPEG
  | UNKNOWN
deriving DecidableEq, Repr

/-- Model of the format derivation of `get_resources_from_year` (lines 168 to
184): the lowercased URL path is matched against the extension chain, with
`unknown` as the default.  The Python `'unknown'` / `'ZIP'` / ... string
values are rendered as the specification enumeration. -/
def file_format_of_path (path : Str) : FileFormat :=
  let p := toLowerStr path
  if strEndsWith p (lit ".zip") then FileFormat.ZIP
  else if strEndsWith p (lit ".csv") then FileFormat.CSV
  else if strEndsWith p (lit ".pdf") then FileFormat.PDF
  else if strEndsWith p (lit ".txt") then FileFormat.TXT
  else if strEndsWith p (lit ".xlsx") || strEndsWith p (lit ".xls") then FileFormat.XLSX
  else if strEndsWith p (lit ".jpg") || strEndsWith p (lit ".jpeg") then FileFormat.JPEG
  else FileFormat.UNKNOWN

/-- Of two suffixes of the same list, the shorter is a suffix of the
longer. -/
theorem suffix_excl {l s1 s2 : Str} (h1 : strEndsWith l s1 = true)
    (h2 : strEndsWith l s2 = true) (hle : s1.length ≤ s2.length) :
    strEndsWith s2 s1 = true := by
  simp only [strEndsWith, decide_eq_true_eq] at h1 h2 ⊢
  exact List.suffix_of_suffix_length_le h1 h2 hle

/-- Two incompatible endings exclude each other: if `l` ends with `s2` and
neither of `s1`, `s2` is a suffix of the other (by length comparison), then
`l` does not end with `s1`. -/
theorem ends_incompat {s1 s2 : Str}
    (hns : (s1.length ≤ s2.length ∧ strEndsWith s2 s1 = false) ∨
           (s2.length ≤ s1.length ∧ strEndsWith s1 s2 = false))
    {l : Str} (h2 : strEndsWith l s2 = true) :
    strEndsWith l s1 = false := by
  cases hb : strEndsWith l s1
  · rfl
  · exfalso
    rcases hns with ⟨hle, hf⟩ | ⟨hle, hf⟩
    · have hres := suffix_excl hb h2 hle
      rw [hres] at hf
      exact Bool.noConfusion hf
    · have hres := suffix_excl h2 hb hle
      rw [hres] at hf
      exact Bool.noConfusion hf

/-- Claim C9 (confirmed): the Resource format is derived from the lowercased
URL path suffix by the extension allow-list — `.zip` to ZIP, `.csv` to CSV,
`.pdf` to PDF, `.txt` to TXT, `.xlsx`/`.xls` to XLSX, `.jpg`/`.jpeg` to
JPEG — and defaults to UNKNOWN when no listed extension matches. -/
theorem C9_format_derivation (path : Str) :
    (strEndsWith (toLowerStr path) (lit ".zip") = true →
      file_format_of_path path = FileFormat.ZIP) ∧
    (strEndsWith (toLowerStr path) (lit ".csv") = true →
      file_format_of_path path = FileFormat.CSV) ∧
    (strEndsWith (toLowerStr path) (lit ".pdf") = true →
      file_format_of_path path = FileFormat.PDF) ∧
    (strEndsWith (toLowerStr path) (lit ".txt") = true →
      file_format_of_path path = FileFormat.TXT) ∧
    ((strEndsWith (toLowerStr path) (lit ".xlsx") = true ∨
      strEndsWith (toLowerStr path) (lit ".xls") = true) →
      file_format_of_path path = FileFormat.XLSX) ∧
    ((strEndsWith (toLowerStr path) (lit ".jpg") = true ∨
      strEndsWith (toLowerStr path) (lit ".jpeg") = true) →
      file_format_of_path path = FileFormat.JPEG) ∧
    ((∀ e ∈ tseExtAllowList, strEndsWith (toLowerStr path) e = false) →
      file_format_of_path path = FileFormat.UNKNOWN) := by
  refine ⟨?_, ?_, ?_, ?_, ?_, ?_, ?_⟩
  · intro h
    simp [file_format_of_path, h]
  · intro h
    have hz : strEndsWith (toLowerStr path) (lit ".zip") = false :=
      ends_incompat (Or.inl ⟨by decide, by decide⟩) h
    simp [file_format_of_path, h, hz]
  · intro h
    have hz : strEndsWith (toLowerStr path) (lit ".zip") = false :=
      ends_incompat (Or.inl ⟨by decide, by decide⟩) h
    have hc : strEndsWith (toLowerStr path) (lit ".csv") = false :=
      ends_incompat (Or.inl ⟨by decide, by decide⟩) h
    simp [file_format_of_path, h, hz, hc]
  · intro h
    have hz : strEndsWith (toLowerStr path) (lit ".zip") = false :=
      ends_incompat (Or.inl ⟨by decide, by decide⟩) h
    have hc : strEndsWith (toLowerStr path) (lit ".csv") = false :=
      ends_incompat (Or.inl ⟨by decide, by decide⟩) h
    have hd : strEndsWith (toLowerStr path) (lit ".pdf") = false :=
      ends_incompat (Or.inl ⟨by decide, by decide⟩) h
    simp [file_format_of_path, h, hz, hc, hd]
  · intro hor
    rcases hor with h | h
    · have hz : strEndsWith (toLowerStr path) (lit ".zip") = false :=
        ends_incompat (Or.inl ⟨by decide, by decide⟩) h
      have hc : strEndsWith (toLowerStr path) (lit ".csv") = false :=
        ends_incompat (Or.inl ⟨by decide, by decide⟩) h
      have hd : strEndsWith (toLowerStr path) (lit ".pdf") = false :=
        ends_incompat (Or.inl ⟨by decide, by decide⟩) h
      have ht : strEndsWith (toLowerStr path) (lit ".txt") = false :=
        ends_incompat (Or.inl ⟨by decide, by decide⟩) h
      simp [file_format_of_path, h, hz, hc, hd, ht]
    · have hz : strEndsWith (toLowerStr path) (lit ".zip") = false :=
        ends_incompat (Or.inl ⟨by decide, by decide⟩) h
      have hc : strEndsWith (toLowerStr path) (lit ".csv") = false :=
        ends_incompat (Or.inl ⟨by decide, by decide⟩) h
      have hd : strEndsWith (toLowerStr path) (lit ".pdf") = false :=
        ends_incompat (Or.inl ⟨by decide, by decide⟩) h
      have ht : strEndsWith (toLowerStr path) (lit ".txt") = false :=
        ends_incompat (Or.inl ⟨by decide, by decide⟩) h
      simp [file_format_of_path, h, hz, hc, hd, ht]
  · intro hor
    rcases hor with h | h
    · have hz : strEndsWith (toLowerStr path) (lit ".zip") = false :=
        ends_incompat (Or.inl ⟨by decide, by decide⟩) h
      have hc : strEndsWith (toLowerStr path) (lit ".csv") = false :=
        ends_incompat (Or.inl ⟨by decide, by decide⟩) h
      have hd : strEndsWith (toLowerStr path) (lit ".pdf") = false :=
        ends_incompat (Or.inl ⟨by decide, by decide⟩) h
      have ht : strEndsWith (toLowerStr path) (lit ".txt") = false :=
        ends_incompat (Or.inl ⟨by decide, by decide⟩) h
      have hxx : strEndsWith (toLowerStr path) (lit ".xlsx") = false :=
        ends_incompat (Or.inr ⟨by decide, by decide⟩) h
      have hx : strEndsWith (toLowerStr path) (lit ".xls") = false :=
        ends_incompat (Or.inl ⟨by decide, by decide⟩) h
      simp [file_format_of_path, h, hz, hc, hd, ht, hxx, hx]
    · have hz : strEndsWith (toLowerStr path) (lit ".zip") = false :=
        ends_incompat (Or.inl ⟨by decide, by decide⟩) h
      have hc : strEndsWith (toLowerStr path) (lit ".csv") = false :=
        ends_incompat (Or.inl ⟨by decide, by decide⟩) h
      have hd : strEndsWith (toLowerStr path) (lit ".pdf") = false :=
        ends_incompat (Or.inl ⟨by decide, by decide⟩) h
      have ht : strEndsWith (toLowerStr path) (lit ".txt") = false :=
        ends_incompat (Or.inl ⟨by decide, by decide⟩) h
      have hxx : strEndsWith (toLowerStr path) (lit ".xlsx") = false :=
        ends_incompat (Or.inl ⟨by decide, by decide⟩) h
      have hx : strEndsWith (toLowerStr path) (lit ".xls") = false :=
        ends_incompat (Or.inl ⟨by decide, by decide⟩) h
      simp [file_format_of_path, h, hz, hc, hd, ht, hxx, hx]
  · intro h
    have h1 := h (lit ".zip") (by decide)
    have h2 := h (lit ".csv") (by decide)
    have h3 := h (lit ".pdf") (by decide)
    have h4 := h (lit ".txt") (by decide)
    have h5 := h (lit ".xlsx") (by decide)
    have h6 := h (lit ".xls") (by decide)
    have h7 := h (lit ".jpg") (by decide)
    have h8 := h (lit ".jpeg") (by decide)
    simp [file_format_of_path, h1, h2, h3, h4, h5, h6, h7, h8]

/-- Claim C9 (witness): the characterisation evaluated on concrete paths for
a listed extension and for the default case. -/
theorem C9_format_derivation_witness :
    file_format_of_path (lit "/arq/cand_2022.zip") = FileFormat.ZIP ∧
    file_format_of_path (lit "/arq/cand_2022") = FileFormat.UNKNOWN :=
  ⟨(C9_format_derivation (lit "/arq/cand_2022.zip")).1 (by decide),
   (C9_format_derivation (lit "/arq/cand_2022")).2.2.2.2.2.2 (by decide)⟩

/-! ## Filename resolver (`diarios_ceara_scraper.py`)

`extract_filename_from_url` plus the four-method cascade of
`test_shortcut_url` (lines 158 to 196) and the sanitisation in `main`
(lines 669 to 673).  A URL is taken already parsed: its path and its query
as an association list (Python `parse_qs` plus the `[0]` projection). -/

/-- The filename query parameters probed by `extract_filename_from_url`. -/
def filenameParamNames : List Str :=
  [lit "arquivo", lit "file", lit "filename", lit "nome", lit "documento"]

/-- A parsed URL: path component and query parameters. -/
structure ParsedUrl where
  path : Str
  query : List (Str × Str)
deriving DecidableEq, Repr

/-- First value bound to the parameter `k` (Python `query_params[param][0]`). -/
def lookupParam (q : List (Str × Str)) (k : Str) : Option Str :=
  (q.find? (fun kv => kv.fst == k)).map Prod.snd

/-- Model of `re.search(r'([^/]+\.pdf)', seg, re.IGNORECASE)` restricted to one
path segment: the end position (exclusive) of the last case-insensitive
occurrence of `.pdf` preceded by at least one character, if any. -/
def pdfEndIndex (seg : Str) : Option Nat :=
  let ls := toLowerStr seg
  (((List.range ls.length).filter
      (fun i => decide (1 ≤ i) && decide (lit ".pdf" <+: ls.drop i))).getLast?).map
    (fun i => i + 4)

/-- Model of the path regex search of `extract_filename_from_url` (line 72):
the regex match cannot cross a slash, so the leftmost match lies in the first
segment containing `.pdf` and runs from the segment start to the last `.pdf`
occurrence of that segment. -/
def pdfPathMatch (p : Str) : Option Str :=
  (splitOnChar '/' p).findSome? (fun seg => (pdfEndIndex seg).map (fun e => seg.take e))

/-- Model of `extract_filename_from_url` (lines 47 to 84): filename from a
known query parameter whose value ends in `.pdf`, else the path regex match,
else the path basename when it ends in `.pdf`, else nothing. -/
def extract_filename_from_url (u : ParsedUrl) : Option Str :=
  let fromQuery := filenameParamNames.findSome? (fun p =>
    match lookupParam u.query p with
    | some v =>
      if (!v.isEmpty) && strEndsWith (toLowerStr v) (lit ".pdf") then some v else none
    | none => none)
  match fromQuery with
  | some f => some f
  | none =>
    if !u.path.isEmpty then
      match pdfPathMatch u.path with
      | some m => some m
      | none =>
        let b := basename u.path
        if (!b.isEmpty) && strEndsWith (toLowerStr b) (lit ".pdf") then some b else none
    else none

/-- The generic action words of the cascade (lines 170, 184). -/
def actionWords : List Str := [lit "visualizar", lit "baixar", lit "download", lit "ver"]

/-- The generic candidate names that trigger the next fallback method
(lines 165, 178, 182). -/
def genericCandidates : List Str :=
  [lit "visualizar.pdf", lit "visualizar", lit "baixar.pdf", lit "download.pdf"]

/-- Python `not filename or filename.lower() in [...]`. -/
def needsFallback : Option Str → Bool
  | none => true
  | some f => f.isEmpty || decide (toLowerStr f ∈ genericCandidates)

/-- The sibling-cell test of method 2 (lines 169 to 171): non-empty, not an
action word, and ending in `.pdf` (case-insensitively) or longer than 5. -/
def cellLooksLikeFilename (c : Str) : Bool :=
  (!c.isEmpty) && !decide (toLowerStr c ∈ actionWords) &&
    (strEndsWith (toLowerStr c) (lit ".pdf") || decide (5 < c.length))

/-- Python `if not filename.endswith('.pdf'): filename += '.pdf'`
(case-sensitive, lines 173 to 174 and 191 to 192). -/
def ensurePdfExt (f : Str) : Str :=
  if strEndsWith f (lit ".pdf") then f else f ++ lit ".pdf"

/-- Model of the filename cascade of `test_shortcut_url` (lines 158 to 196).
`cellTexts` are the texts of the other cells of the table row in order,
`cdProbe` is the filename from the Content-Disposition HEAD probe (`none`
when the probe fails or the header is absent), `linkText` the visible anchor
text. -/
def resolve_filename (u : ParsedUrl) (cellTexts : List Str) (cdProbe : Option Str)
    (linkText : Str) : Str :=
  let f1 := extract_filename_from_url u
  let f2 :=
    if needsFallback f1 then
      match cellTexts.find? cellLooksLikeFilename with
      | some c => some (ensurePdfExt c)
      | none => f1
    else f1
  let f3 := if needsFallback f2 then cdProbe else f2
  let f4 :=
    if needsFallback f3 then
      if (!linkText.isEmpty) && !decide (toLowerStr linkText ∈ actionWords) then linkText
      else
        let b := basename u.path
        if b.isEmpty then lit "documento.pdf" else b
    else f3.getD []
  ensurePdfExt f4

/-- Python `c.isalnum() or c in "._- "` of `main` (line 671), with `isalnum`
modelled on ASCII alphanumerics. -/
def allowedFilenameChar (c : Char) : Bool :=
  c.isAlphanum || c == '.' || c == '_' || c == '-' || c == ' '

/-- Model of the sanitisation in `main` (lines 670 to 673): keep only allowed
characters, then re-ensure the `.pdf` ending. -/
def sanitize_filename (f : Str) : Str :=
  ensurePdfExt (f.filter allowedFilenameChar)

/-- The output of `ensurePdfExt` always ends in `.pdf`. -/
theorem ensurePdfExt_ends (f : Str) :
    strEndsWith (ensurePdfExt f) (lit ".pdf") = true := by
  unfold ensurePdfExt
  split
  · next h => exact h
  · simp only [strEndsWith, decide_eq_true_eq]
    exact List.suffix_append _ _

/-- The output of `ensurePdfExt` is never empty. -/
theorem ensurePdfExt_ne_nil (f : Str) : ensurePdfExt f ≠ [] := by
  intro he
  have h := ensurePdfExt_ends f
  rw [he] at h
  simp only [strEndsWith, decide_eq_true_eq] at h
  have := h.length_le
  simp [lit] at this

/-- Claim C7 (counterexample): with a URL whose path ends in the action word
`baixar`, no usable query parameter, no qualifying sibling cell, no
Content-Disposition name, and the action-word link text `Baixar`, the
resolver falls back to the URL basename and returns the bare action word
`baixar.pdf` — not `documento.pdf`. -/
theorem C7_counterexample :
    resolve_filename ⟨lit "/doepesquisa/baixar", [(lit "id", lit "3")]⟩ [] none
      (lit "Baixar") = lit "baixar.pdf" ∧
    toLowerStr (lit "baixar") ∈ actionWords := by
  constructor
  · decide
  · decide

/-- Claim C7 (amended): the resolver always returns a non-empty name ending
in `.pdf`; in the claimed example scenario (URL `.../baixar?id=3`, sibling
text `Edital 045/2024.pdf`) it returns `Edital 045/2024.pdf`; and the
sanitisation — performed afterwards in `main`, not inside the resolver —
keeps only alphanumerics, space, `.`, `_`, `-` and re-ensures the `.pdf`
ending.  The final fallback may however return a bare action word taken from
the URL basename (see the counterexample). -/
theorem C7_resolver_postconditions :
    (∀ (u : ParsedUrl) (cellTexts : List Str) (cdProbe : Option Str) (linkText : Str),
      resolve_filename u cellTexts cdProbe linkText ≠ [] ∧
      strEndsWith (resolve_filename u cellTexts cdProbe linkText) (lit ".pdf") = true) ∧
    (∀ f : Str, ∀ c ∈ sanitize_filename f, allowedFilenameChar c = true) ∧
    (∀ f : Str, sanitize_filename f ≠ [] ∧
      strEndsWith (sanitize_filename f) (lit ".pdf") = true) ∧
    resolve_filename ⟨lit "/doepesquisa/baixar", [(lit "id", lit "3")]⟩
      [lit "Edital 045/2024.pdf"] none (lit "Baixar") = lit "Edital 045/2024.pdf" := by
  refine ⟨?_, ?_, ?_, by decide⟩
  · intro u cellTexts cdProbe linkText
    exact ⟨ensurePdfExt_ne_nil _, ensurePdfExt_ends _⟩
  · intro f c hc
    unfold sanitize_filename ensurePdfExt at hc
    split at hc
    · exact (List.mem_filter.mp hc).2
    · rcases List.mem_append.mp hc with hl | hr
      · exact (List.mem_filter.mp hl).2
      · have hall : ∀ x ∈ lit ".pdf", allowedFilenameChar x = true := by decide
        exact hall c hr
  · intro f
    exact ⟨ensurePdfExt_ne_nil _, ensurePdfExt_ends _⟩

/-- Claim C7 (witness): the sanitisation conjunct evaluated on a concrete
character of a concrete sanitised filename. -/
theorem C7_resolver_postconditions_witness :
    allowedFilenameChar 'a' = true :=
  C7_resolver_postconditions.2.1 (lit "a/b.pdf") 'a' (by decide)

/-- Claim C10 (counterexample): the generic-name check lowercases the
requested basename first, so the requested basename `BAIXAR.PDF` — which is
not literally one of the four generic names — is still replaced by the
Content-Disposition filename. -/
theorem C10_counterexample :
    basename (resolveOutputPath (lit "d/BAIXAR.PDF") (some (lit "diario.pdf"))) ≠
      basename (lit "d/BAIXAR.PDF") ∧
    basename (lit "d/BAIXAR.PDF") ∉ genericTargets ∧
    resolveOutputPath (lit "d/BAIXAR.PDF") (some (lit "diario.pdf")) =
      lit "d/diario.pdf" := by
  decide

/-- Claim C10 (amended): `download_file` writes to a path different from the
requested one only when the lowercased requested basename is one of
`visualizar.pdf`, `baixar.pdf`, `download.pdf`, `documento.pdf` and the
Content-Disposition header supplies a non-empty name whose lowercased form
ends in `.pdf`; whenever the lowercased requested basename is not generic,
the path is left unchanged. -/
theorem C10_rename_only_generic (filepath : Str) (cdName : Option Str) :
    (toLowerStr (basename filepath) ∉ genericTargets →
      resolveOutputPath filepath cdName = filepath) ∧
    (resolveOutputPath filepath cdName ≠ filepath →
      ∃ n, cdName = some n ∧ (!n.isEmpty) = true ∧
        strEndsWith (toLowerStr n) (lit ".pdf") = true ∧
        toLowerStr (basename filepath) ∈ genericTargets) := by
  cases cdName with
  | none => exact ⟨fun _ => rfl, fun h => absurd rfl h⟩
  | some n =>
    simp only [resolveOutputPath]
    split
    · next hcond =>
      have h3 := (Bool.and_eq_true _ _).mp hcond
      have hmem : toLowerStr (basename filepath) ∈ genericTargets :=
        of_decide_eq_true h3.2
      have h12 := (Bool.and_eq_true _ _).mp h3.1
      constructor
      · intro hng
        exact absurd hmem hng
      · intro _
        exact ⟨n, rfl, h12.1, h12.2, hmem⟩
    · exact ⟨fun _ => rfl, fun h => absurd rfl h⟩

/-- Claim C10 (witness): the amended theorem evaluated on a non-generic
requested basename, which is left unchanged. -/
theorem C10_rename_only_generic_witness :
    resolveOutputPath (lit "d/edital_045.pdf") (some (lit "diario.pdf")) =
      lit "d/edital_045.pdf" :=
  (C10_rename_only_generic (lit "d/edital_045.pdf") (some (lit "diario.pdf"))).1
    (by decide)
